import Mathlib

/-!
Shallow embedding of the WCAG alt-text generator's classification and
context-extraction engine (`src/alt_text_generator.py`), together with
theorems checking the specification's claims about it.

The Python code operates on a BeautifulSoup document tree through a small
set of queries: attribute lookup on the image tag, `find_parent` over the
ancestor chain, `find` over a subtree, `get_text(strip=True)`, and the
document-order text-node iterators `find_previous(string=True)` /
`find_next(string=True)`.  We embed the image node together with the
results those queries range over: its attribute list, its ancestor chain
(nearest first, each ancestor carried with its full subtree), and the
lists of text nodes before and after it in document order (nearest first
for the `before` list).
-/

set_option autoImplicit false

/-- An HTML node: either a text node or an element with a name, an
attribute list and children. -/
inductive Node where
  | text (s : String)
  | element (name : String) (attrs : List (String × String)) (children : List Node)

/-- The element name of a node, `none` for text nodes. -/
def node_name : Node → Option String
  | .text _ => none
  | .element n _ _ => some n

/-- The attribute list of a node (empty for text nodes). -/
def node_attrs : Node → List (String × String)
  | .text _ => []
  | .element _ a _ => a

/-- The children of a node (empty for text nodes). -/
def node_children : Node → List Node
  | .text _ => []
  | .element _ _ cs => cs

/-- Python `str.strip()`: drop leading and trailing whitespace.  Written
by structural recursion over the character list so that it evaluates
inside the kernel. -/
def py_strip (s : String) : String :=
  ⟨((s.data.dropWhile Char.isWhitespace).reverse.dropWhile Char.isWhitespace).reverse⟩

/-- `pat` is a prefix of the second list (character-wise). -/
def chars_starts_with : List Char → List Char → Bool
  | [], _ => true
  | _ :: _, [] => false
  | a :: as, b :: bs => a == b && chars_starts_with as bs

/-- `pat` occurs as a contiguous sublist of the second list. -/
def chars_has_sub (pat : List Char) : List Char → Bool
  | [] => pat.isEmpty
  | c :: rest => chars_starts_with pat (c :: rest) || chars_has_sub pat rest

/-- Python's substring test `pat in hay`. -/
def str_contains_substr (hay pat : String) : Bool :=
  chars_has_sub pat.data hay.data

/-- All text-node contents inside a forest, in document order.  Embeds
BeautifulSoup's `Tag.strings` iteration over a list of children. -/
def strings_list : List Node → List String
  | [] => []
  | .text s :: ns => s :: strings_list ns
  | .element _ _ cs :: ns => strings_list cs ++ strings_list ns

/-- `get_text(strip=True)`: every descendant string, stripped, the
whitespace-only ones dropped, joined with no separator. -/
def get_text_strip (n : Node) : String :=
  String.join (((strings_list (node_children n)).map py_strip).filter (fun s => s != ""))

/-- First descendant element with the given tag name, in document
(pre-order) order, searching a forest.  Embeds BeautifulSoup's
`Tag.find(tag)` (which searches descendants, not the tag itself). -/
def find_tag_list (tag : String) : List Node → Option Node
  | [] => none
  | .text _ :: ns => find_tag_list tag ns
  | .element nm a cs :: ns =>
      if nm = tag then some (.element nm a cs)
      else match find_tag_list tag cs with
        | some r => some r
        | none => find_tag_list tag ns

/-- `fig.find(tag)` on a single node. -/
def find_tag (tag : String) (n : Node) : Option Node :=
  find_tag_list tag (node_children n)

/-- A text node as seen by `find_previous(string=True)` /
`find_next(string=True)`: its content and the name of its direct parent
element. -/
structure TextFragment where
  content : String
  parentName : Option String
deriving Repr, DecidableEq

/-- One `<img>` element in its document context: its attributes, its
ancestor chain (nearest first, each with its full subtree), and the text
nodes strictly before / after it in document order (both nearest
first). -/
structure ImgContext where
  attrs : List (String × String)
  ancestors : List Node
  textsBefore : List TextFragment
  textsAfter : List TextFragment

/-- `img.find_parent(tag)`: nearest ancestor element with the given
name. -/
def find_parent (img : ImgContext) (tag : String) : Option Node :=
  img.ancestors.find? (fun n => node_name n == some tag)

/-- `img.find_parent([tags])`: nearest ancestor element whose name is one
of the given names. -/
def find_parent_any (img : ImgContext) (tags : List String) : Option Node :=
  img.ancestors.find? (fun n =>
    match node_name n with
    | some m => tags.contains m
    | none => false)

/-- Python truthiness of an optional attribute value: `None` and the
empty string are falsy. -/
def py_truthy : Option String → Bool
  | none => false
  | some s => s != ""

/-- The classification result dictionary built by
`_determine_image_role`.  `link_text` / `link_url` are `none` when the
corresponding keys are absent from the Python dict. -/
structure RoleInfo where
  is_decorative : Bool := false
  is_functional : Bool := false
  is_informative : Bool := false
  has_caption : Bool := false
  in_content : Bool := false
  in_header : Bool := false
  in_navigation : Bool := false
  caption_text : String := ""
  link_text : Option String := none
  link_url : Option String := none
deriving Repr, DecidableEq

/-- The decorative test of `_determine_image_role`:
`role == 'presentation' or aria-hidden == 'true' or
(not alt and not find_parent('a'))`. -/
def decorative_check (img : ImgContext) : Bool :=
  (img.attrs.lookup "role" == some "presentation") ||
  (img.attrs.lookup "aria-hidden" == some "true") ||
  (!(py_truthy (img.attrs.lookup "alt")) && (find_parent img "a").isNone)

/-- The RoleInfo dict as returned on the decorative early-return path:
only `is_decorative` is set, all other fields keep their initial
values. -/
def decorative_role_info : RoleInfo := { is_decorative := true }

/-- The RoleInfo built on the non-decorative path of
`_determine_image_role`: the functional, caption, location and
informative facts filled in exactly as the Python code does. -/
def role_info_main (img : ImgContext) : RoleInfo :=
  { is_decorative := false
    is_functional := (find_parent img "a").isSome || (find_parent img "button").isSome
    is_informative := !((find_parent img "a").isSome || (find_parent img "button").isSome)
    has_caption := ((find_parent img "figure").bind (find_tag "figcaption")).isSome
    caption_text := (((find_parent img "figure").bind (find_tag "figcaption")).map get_text_strip).getD ""
    in_header := (find_parent img "header").isSome
    in_navigation := (find_parent img "nav").isSome
    in_content := (find_parent_any img ["article", "main", "section"]).isSome
    link_text := (find_parent img "a").map get_text_strip
    link_url := (find_parent img "a").map (fun a => ((node_attrs a).lookup "href").getD "") }

/-- `_determine_image_role`: decorative short-circuits and returns the
dict with only `is_decorative` set; otherwise the remaining facts are
computed. -/
def determine_image_role (img : ImgContext) : RoleInfo :=
  if decorative_check img then decorative_role_info else role_info_main img

/-- Exactly one of three booleans is true. -/
def exactly_one (a b c : Bool) : Bool :=
  (a && !b && !c) || (!a && b && !c) || (!a && !b && c)

/-! ## Context extractor (`_get_surrounding_text`) -/

/-- The code-pattern denylist of `is_valid_text`. -/
def code_patterns : List String :=
  ["\x7b", "\x7d", "//", "/*", "*/", "<script", "<style", "@media",
   "function(", "var ", "let ", "const ", ".css", ".js", "window.", "document."]

/-- The unwanted-parent test of `is_valid_text`: the fragment's direct
parent element is a `script`, `style`, `code` or `noscript` tag. -/
def parent_in_blocklist : Option String → Bool
  | some n => ["script", "style", "code", "noscript"].contains n
  | none => false

/-- `is_valid_text` from `_get_surrounding_text`: a fragment is rejected
when it is the empty (falsy) string, when its direct parent element is a
`script`, `style`, `code` or `noscript` tag, when it strips to nothing,
or when its stripped content contains one of the code patterns. -/
def is_valid_text (f : TextFragment) : Bool :=
  if f.content == "" then false
  else if parent_in_blocklist f.parentName then false
  else if py_strip f.content == "" then false
  else if code_patterns.any (fun pat => str_contains_substr (py_strip f.content) pat) then false
  else true

/-- `' '.join(xs)`. -/
def join_space : List String → String
  | [] => ""
  | [s] => s
  | s :: t :: r => s ++ " " ++ join_space (t :: r)

/-- The `next_text` loop: while text nodes remain and the space-joined
accumulator is still shorter than the budget, append the stripped content
of each fragment that passes `is_valid_text`. -/
def collect_next (B : Nat) : List TextFragment → List String → List String
  | [], acc => acc
  | f :: rest, acc =>
      if (join_space acc).length < B then
        collect_next B rest (if is_valid_text f then acc ++ [py_strip f.content] else acc)
      else acc

/-- The `previous_text` loop: identical, but each accepted fragment is
inserted at position 0 (`insert(0, ...)`), and the fragments arrive
nearest-first. -/
def collect_prev (B : Nat) : List TextFragment → List String → List String
  | [], acc => acc
  | f :: rest, acc =>
      if (join_space acc).length < B then
        collect_prev B rest (if is_valid_text f then py_strip f.content :: acc else acc)
      else acc

/-- The `before` / `after` result of `_get_surrounding_text`. -/
structure TextContext where
  before : String
  after : String
deriving Repr, DecidableEq

/-- `_get_surrounding_text(img, context_range)`. -/
def get_surrounding_text (img : ImgContext) (context_range : Nat) : TextContext :=
  { before := join_space (collect_prev context_range img.textsBefore [])
    after := join_space (collect_next context_range img.textsAfter []) }

/-- `_get_surrounding_text` at its default budget `context_range = 100`. -/
def get_surrounding_text_default (img : ImgContext) : TextContext :=
  get_surrounding_text img 100

/-- The stripped contents of the fragments that pass `is_valid_text`, in
traversal order. -/
def qualifying (fs : List TextFragment) : List String :=
  (fs.filter is_valid_text).map (fun f => py_strip f.content)

/-- A fragment that qualifies and whose stripped content is exactly 40
characters long. -/
def frag40 (f : TextFragment) : Bool :=
  is_valid_text f && ((py_strip f.content).length == 40)

/-! ## Assembler and description generation
(`extract_image_info`, `generate_alt_text`) -/

/-- The parts of `image_data` that `generate_alt_text` reads (besides the
role dict): `existing_alt`, the optional `title` key, and the surrounding
text context. -/
structure GenInput where
  role : RoleInfo
  existing_alt : String
  title : Option String
  context : TextContext

/-- Python's repr of the link dict interpolated into the prompt. -/
def link_repr (t u : String) : String :=
  "\x7b\x27text\x27: \x27" ++ t ++ "\x27, \x27url\x27: \x27" ++ u ++ "\x27\x7d"

/-- The prompt f-string of `generate_alt_text` (built only on the
non-decorative path). -/
def build_prompt (d : GenInput) : String :=
  "Given this image context, generate appropriate WCAG 2.1-compliant alt text:\n\n" ++
  "Image Role: " ++ (if d.role.is_functional then "functional" else "informative") ++ "\n" ++
  "Existing Alt: " ++ d.existing_alt ++ "\n" ++
  "Title: " ++ d.title.getD "" ++ "\n" ++
  "Caption: " ++ d.role.caption_text ++ "\n" ++
  "Link Info: " ++ (if d.role.is_functional then
      link_repr (d.role.link_text.getD "") (d.role.link_url.getD "")
    else "Not a link") ++ "\n" ++
  "Surrounding Text:\n- Before: " ++ d.context.before ++ "\n- After: " ++ d.context.after ++
  "\n\nGenerate alt text following these WCAG guidelines:\n" ++
  "1. If functional (in link/button), describe the action\n" ++
  "2. Be concise but descriptive\n" ++
  "3. Don\x27t repeat information already visible in surrounding text\n" ++
  "4. Don\x27t use phrases like \"image of\" or \"picture of\"\n" ++
  "5. Focus on the purpose and meaning of the image\n" ++
  "6. Keep it under 125 characters when possible\n\nAlt text:"

/-- `generate_alt_text`, with the external model call abstracted as
`gen : prompt -> Except error responseText`.  Returns the produced string
together with the list of prompts actually sent to the external service
(so that the no-invocation contract is visible in the model).  A raised
exception in the call is the `Except.error` case and yields the sentinel
string. -/
def generate_alt_text (gen : String → Except String String)
    (d : GenInput) : String × List String :=
  if d.role.is_decorative then ("", [])
  else
    match gen (build_prompt d) with
    | .ok s => (py_strip s, [build_prompt d])
    | .error e => ("Error generating alt text: " ++ e, [build_prompt d])

/-- One output record of `extract_image_info`.  `title`, `caption` and
`link` are `none` exactly when the corresponding keys are absent from the
Python dict. -/
structure ImageContextRecord where
  src : String
  existing_alt : String
  role : String
  context : TextContext
  title : Option String
  caption : Option String
  link : Option (String × String)
  suggested_alt : String
deriving Repr, DecidableEq

/-- The `GenInput` that `extract_image_info` hands to
`generate_alt_text` for one image (role dict, existing alt, the record's
optional title, and the surrounding-text context). -/
def gen_input_of (img : ImgContext) : GenInput :=
  { role := determine_image_role img
    existing_alt := (img.attrs.lookup "alt").getD ""
    title :=
      if py_strip ((img.attrs.lookup "title").getD "") == "" then none
      else some (py_strip ((img.attrs.lookup "title").getD ""))
    context := get_surrounding_text_default img }

/-- The body of the `for img in soup.find_all('img')` loop of
`extract_image_info`: builds one record and returns it together with the
prompts sent for it. -/
def extract_one (gen : String → Except String String)
    (img : ImgContext) : ImageContextRecord × List String :=
  ({ src := (img.attrs.lookup "src").getD ""
     existing_alt := (img.attrs.lookup "alt").getD ""
     role := if (determine_image_role img).is_decorative then "decorative"
             else if (determine_image_role img).is_functional then "functional"
             else "informative"
     context := get_surrounding_text_default img
     title :=
       if py_strip ((img.attrs.lookup "title").getD "") == "" then none
       else some (py_strip ((img.attrs.lookup "title").getD ""))
     caption := if py_strip (determine_image_role img).caption_text == "" then none
                else some (determine_image_role img).caption_text
     link := if (determine_image_role img).is_functional &&
                (py_strip ((determine_image_role img).link_text.getD "") != "")
             then some ((determine_image_role img).link_text.getD "",
                        (determine_image_role img).link_url.getD "")
             else none
     suggested_alt := (generate_alt_text gen (gen_input_of img)).1 },
   (generate_alt_text gen (gen_input_of img)).2)

/-- `extract_image_info`: one record per image, in document order. -/
def extract_image_info (gen : String → Except String String)
    (imgs : List ImgContext) : List ImageContextRecord :=
  imgs.map (fun img => (extract_one gen img).1)

/-! ## Concrete document fixtures used by witnesses and counterexamples -/

/-- An anchor with visible text, used as an enclosing ancestor. -/
def anchor_home : Node := .element "a" [("href", "/home")] [.text "Home"]

/-- An image with `aria-hidden="true"`, a non-empty alt and an enclosing
anchor. -/
def ex2_aria : ImgContext :=
  { attrs := [("aria-hidden", "true"), ("alt", "Logo")]
    ancestors := [anchor_home]
    textsBefore := []
    textsAfter := [] }

/-- An image with an empty alt attribute inside an anchor. -/
def ex2_link : ImgContext :=
  { attrs := [("alt", "")]
    ancestors := [anchor_home]
    textsBefore := []
    textsAfter := [] }

/-- A qualifying text fragment whose stripped content is exactly 40
characters long. -/
def frag_len40 : TextFragment :=
  { content := "abcdefghijklmnopqrstuvwxyzabcdefghijklmn", parentName := some "p" }

/-- An informative image with three 40-character qualifying fragments on
each side. -/
def img_frags3 : ImgContext :=
  { attrs := [("alt", "x")]
    ancestors := []
    textsBefore := [frag_len40, frag_len40, frag_len40]
    textsAfter := [frag_len40, frag_len40, frag_len40] }

/-- A figcaption whose only text strips to nothing. -/
def figcaption_blank : Node := .element "figcaption" [] [.text "   "]

/-- A figure containing that blank figcaption and an image. -/
def figure_blank_caption : Node :=
  .element "figure" [] [figcaption_blank, .element "img" [("alt", "x")] []]

/-- A non-decorative image whose enclosing figure holds a figcaption with
whitespace-only text. -/
def ex_blank_caption : ImgContext :=
  { attrs := [("alt", "x")]
    ancestors := [figure_blank_caption]
    textsBefore := []
    textsAfter := [] }

/-- An anchor whose only visible text is whitespace. -/
def anchor_blank_text : Node :=
  .element "a" [("href", "/x")] [.text "   ", .element "img" [("alt", "x")] []]

/-- A functional image inside an anchor with whitespace-only visible
text. -/
def ex_blank_link : ImgContext :=
  { attrs := [("alt", "x")]
    ancestors := [anchor_blank_text]
    textsBefore := []
    textsAfter := [] }

/-- A decorative image: no alt attribute and no enclosing anchor. -/
def img_dec : ImgContext :=
  { attrs := [], ancestors := [], textsBefore := [], textsAfter := [] }

/-- A plain informative image with a non-empty alt. -/
def img_plain : ImgContext :=
  { attrs := [("alt", "x")], ancestors := [], textsBefore := [], textsAfter := [] }

/-- An image with a whitespace-only alt attribute and no ancestors. -/
def img_space_alt : ImgContext :=
  { attrs := [("alt", " ")], ancestors := [], textsBefore := [], textsAfter := [] }

/-- An external generator that always succeeds. -/
def gen_ok : String → Except String String := fun _ => .ok "generated"

/-- An external generator that always raises. -/
def gen_fail : String → Except String String := fun _ => .error "boom"

/-! ## Shared helper lemmas -/

/-- The `is_decorative` flag equals the decorative test on both branches
of `_determine_image_role`. -/
theorem is_decorative_eq_check (img : ImgContext) :
    (determine_image_role img).is_decorative = decorative_check img := by
  cases h : decorative_check img <;>
    simp [determine_image_role, h, decorative_role_info, role_info_main]

/-- Python falsiness of an optional attribute value. -/
theorem py_truthy_eq_false_iff (o : Option String) :
    py_truthy o = false ↔ (o = none ∨ o = some "") := by
  cases o with
  | none => simp [py_truthy]
  | some s => simp [py_truthy]

/-- The parent blocklist test, in membership form. -/
theorem parent_in_blocklist_iff (o : Option String) :
    parent_in_blocklist o = true ↔
      ∃ p, o = some p ∧ p ∈ ["script", "style", "code", "noscript"] := by
  cases o with
  | none => simp [parent_in_blocklist]
  | some n => simp [parent_in_blocklist, List.elem_iff, List.contains]

/-! ## Claim theorems -/

/-- C1: for every image node, the RoleInfo produced by the role
classifier has exactly one of `is_decorative`, `is_functional`,
`is_informative` set to true: decorative short-circuits before the
functional check and informative is set iff neither decorative nor
functional was set. -/
theorem C1_role_mutual_exclusivity (img : ImgContext) :
    exactly_one (determine_image_role img).is_decorative
      (determine_image_role img).is_functional
      (determine_image_role img).is_informative = true := by
  cases h : decorative_check img with
  | true => simp [determine_image_role, h, decorative_role_info, exactly_one]
  | false =>
      cases hf : ((find_parent img "a").isSome || (find_parent img "button").isSome) <;>
        simp [determine_image_role, h, hf, role_info_main, exactly_one]

/-- C2: an image is classified decorative iff its role attribute equals
"presentation", or its aria-hidden attribute equals "true", or its alt
attribute is empty/absent and it has no enclosing anchor ancestor.  In
particular an image with aria-hidden="true" is decorative even with
non-empty alt text and an enclosing anchor, and an image with empty alt
text but an enclosing anchor is not decorative by that rule and falls
through to the functional/informative checks. -/
theorem C2_decorative_condition :
    (∀ img : ImgContext,
        (determine_image_role img).is_decorative = true ↔
          (img.attrs.lookup "role" = some "presentation" ∨
           img.attrs.lookup "aria-hidden" = some "true" ∨
           ((img.attrs.lookup "alt" = none ∨ img.attrs.lookup "alt" = some "") ∧
             find_parent img "a" = none))) ∧
    (determine_image_role ex2_aria).is_decorative = true ∧
    (determine_image_role ex2_link).is_decorative = false ∧
    (determine_image_role ex2_link).is_functional = true := by
  refine ⟨?_, rfl, rfl, rfl⟩
  intro img
  rw [is_decorative_eq_check]
  simp [decorative_check, Bool.or_eq_true, Bool.and_eq_true, beq_iff_eq,
    Bool.not_eq_true', py_truthy_eq_false_iff, Option.isNone_iff_eq_none, or_assoc]

/-- C8: when an image is classified decorative, classification stops
immediately: the returned RoleInfo carries only the decorative flag, so
`has_caption`, `in_header`, `in_navigation`, `in_content` remain false,
`caption_text` remains empty and no link entries are present. -/
theorem C8_decorative_frame (img : ImgContext)
    (h : (determine_image_role img).is_decorative = true) :
    determine_image_role img = decorative_role_info := by
  rw [is_decorative_eq_check] at h
  simp [determine_image_role, h]

/-- Witness for C8 at a concrete decorative image. -/
theorem C8_decorative_frame_witness :
    (determine_image_role img_dec).is_decorative = true ∧
    determine_image_role img_dec = decorative_role_info :=
  ⟨rfl, C8_decorative_frame img_dec rfl⟩

/-- C10: an image whose role attribute is not "presentation" and whose
aria-hidden attribute is not "true", with a whitespace-only (more
generally any non-empty, untrimmed) alt attribute value and no enclosing
anchor or button, is classified informative, not decorative: the
emptiness test is on the raw attribute value with no trimming. -/
theorem C10_whitespace_alt (img : ImgContext) (s : String)
    (hrole : img.attrs.lookup "role" ≠ some "presentation")
    (haria : img.attrs.lookup "aria-hidden" ≠ some "true")
    (halt : img.attrs.lookup "alt" = some s) (hs : s ≠ "")
    (ha : find_parent img "a" = none) (hb : find_parent img "button" = none) :
    (determine_image_role img).is_informative = true ∧
    (determine_image_role img).is_decorative = false := by
  have hc : decorative_check img = false := by
    simp [decorative_check, beq_iff_eq, hrole, haria, halt, py_truthy, hs]
  simp [determine_image_role, hc, role_info_main, ha, hb]

/-- Witness for C10: a single-space alt attribute yields an informative
classification. -/
theorem C10_whitespace_alt_witness :
    (determine_image_role img_space_alt).is_informative = true ∧
    (determine_image_role img_space_alt).is_decorative = false :=
  C10_whitespace_alt img_space_alt " " (by decide) (by decide) rfl (by decide)
    rfl rfl

/-- C4: a text fragment is excluded from context iff it is empty after
trimming, or its nearest element ancestor is a script, style, code or
noscript tag, or its stripped content contains one of the fixed denylist
substrings; in particular the fragment "margin: 10px; /* comment */" is
excluded even though it contains readable words.  (The containment test
runs on the stripped content, exactly as `is_valid_text` does.) -/
theorem C4_text_filter_denylist :
    (∀ f : TextFragment,
        is_valid_text f = false ↔
          (py_strip f.content = "" ∨
           (∃ p, f.parentName = some p ∧ p ∈ ["script", "style", "code", "noscript"]) ∨
           ∃ pat ∈ code_patterns, str_contains_substr (py_strip f.content) pat = true)) ∧
    is_valid_text { content := "margin: 10px; /* comment */", parentName := some "p" } = false := by
  refine ⟨?_, by decide⟩
  intro f
  by_cases h1 : f.content = ""
  · refine iff_of_true (by simp [is_valid_text, h1]) (Or.inl (by rw [h1]; rfl))
  · by_cases h2 : parent_in_blocklist f.parentName = true
    · exact iff_of_true (by simp [is_valid_text, beq_iff_eq, h1, h2])
        (Or.inr (Or.inl ((parent_in_blocklist_iff _).mp h2)))
    · by_cases h3 : py_strip f.content = ""
      · exact iff_of_true (by simp [is_valid_text, beq_iff_eq, h1, h2, h3]) (Or.inl h3)
      · by_cases h4 : code_patterns.any
            (fun pat => str_contains_substr (py_strip f.content) pat) = true
        · refine iff_of_true (by simp [is_valid_text, beq_iff_eq, h1, h2, h3, h4]) ?_
          exact Or.inr (Or.inr (by simpa [List.any_eq_true] using h4))
        · refine iff_of_false (by simp [is_valid_text, beq_iff_eq, h1, h2, h3, h4]) ?_
          rintro (hc | hp | hpat)
          · exact h3 hc
          · exact h2 ((parent_in_blocklist_iff _).mpr hp)
          · exact h4 (by simpa [List.any_eq_true] using hpat)

/-- C5 counterexample: a non-decorative image whose enclosing figure
holds a figcaption with whitespace-only text gets `has_caption = true`
while the stored caption text is empty, contradicting the claim that
`has_caption` is set only for a figcaption with non-empty trimmed text
and that `caption_text` is empty iff `has_caption` is false. -/
theorem C5_caption_counterexample :
    (determine_image_role ex_blank_caption).is_decorative = false ∧
    (determine_image_role ex_blank_caption).has_caption = true ∧
    (determine_image_role ex_blank_caption).caption_text = "" := by
  refine ⟨rfl, ?_, ?_⟩ <;>
    simp [determine_image_role, decorative_check, ex_blank_caption, role_info_main,
      find_parent, figure_blank_caption, figcaption_blank, find_tag, find_tag_list,
      node_children, node_name, get_text_strip, strings_list, py_truthy, py_strip,
      String.join, List.lookup]

/-- C5 amended: for every non-decorative image, `has_caption` is true
iff an enclosing figure ancestor exists and contains a figcaption
descendant (regardless of whether the figcaption's stripped text is
empty); `caption_text` is that figcaption's stripped text (so it may be
empty even when `has_caption` is true), and `caption_text` is empty
whenever `has_caption` is false. -/
theorem C5_caption_amended (img : ImgContext)
    (h : (determine_image_role img).is_decorative = false) :
    ((determine_image_role img).has_caption = true ↔
      ∃ fc, (find_parent img "figure").bind (find_tag "figcaption") = some fc) ∧
    ((determine_image_role img).caption_text =
      (((find_parent img "figure").bind (find_tag "figcaption")).map get_text_strip).getD "") ∧
    ((determine_image_role img).has_caption = false →
      (determine_image_role img).caption_text = "") := by
  rw [is_decorative_eq_check] at h
  rw [determine_image_role, if_neg (by simp [h])]
  refine ⟨?_, rfl, ?_⟩
  · simp only [role_info_main, Option.isSome_iff_exists]
  · intro hc
    have hc' : ((find_parent img "figure").bind (find_tag "figcaption")).isSome = false := hc
    have hn : (find_parent img "figure").bind (find_tag "figcaption") = none :=
      Option.not_isSome_iff_eq_none.mp (by simp [hc'])
    show (((find_parent img "figure").bind (find_tag "figcaption")).map get_text_strip).getD "" = ""
    rw [hn]
    rfl

/-- Witness for the amended C5 at the blank-figcaption fixture. -/
theorem C5_caption_amended_witness :
    ((determine_image_role ex_blank_caption).has_caption = true ↔
      ∃ fc, (find_parent ex_blank_caption "figure").bind (find_tag "figcaption") = some fc) ∧
    ((determine_image_role ex_blank_caption).caption_text =
      (((find_parent ex_blank_caption "figure").bind (find_tag "figcaption")).map
        get_text_strip).getD "") ∧
    ((determine_image_role ex_blank_caption).has_caption = false →
      (determine_image_role ex_blank_caption).caption_text = "") :=
  C5_caption_amended ex_blank_caption rfl

/-- C6: in every produced record the optional fields are absent (not
present-but-empty) exactly when their trimmed source data is empty:
`title` is present iff the trimmed title attribute is non-empty,
`caption` iff the stored caption text trims non-empty, and `link` iff
the image is functional and the enclosing anchor's stripped visible text
is non-empty; in particular a functional image inside an anchor with
only whitespace as visible text yields a record with no link field. -/
theorem C6_optional_fields_absent :
    (∀ (gen : String → Except String String) (img : ImgContext),
        ((extract_one gen img).1.title = none ↔
          py_strip ((img.attrs.lookup "title").getD "") = "") ∧
        ((extract_one gen img).1.caption = none ↔
          py_strip (determine_image_role img).caption_text = "") ∧
        ((extract_one gen img).1.link = none ↔
          ((determine_image_role img).is_functional = false ∨
            py_strip ((determine_image_role img).link_text.getD "") = ""))) ∧
    (determine_image_role ex_blank_link).is_functional = true ∧
    (extract_one gen_ok ex_blank_link).1.link = none := by
  refine ⟨?_, rfl, ?_⟩
  · intro gen img
    refine ⟨?_, ?_, ?_⟩
    · by_cases ht : py_strip ((img.attrs.lookup "title").getD "") = "" <;>
        simp [extract_one, beq_iff_eq, ht]
    · by_cases hc : py_strip (determine_image_role img).caption_text = "" <;>
        simp [extract_one, beq_iff_eq, hc]
    · cases hf : (determine_image_role img).is_functional
      · simp [extract_one, hf]
      · by_cases hl : py_strip ((determine_image_role img).link_text.getD "") = "" <;>
          simp [extract_one, bne_iff_ne, hf, hl]
  · simp [extract_one, determine_image_role, decorative_check, ex_blank_link,
      role_info_main, find_parent, anchor_blank_text, node_name, node_children,
      node_attrs, get_text_strip, strings_list, py_truthy, py_strip, String.join,
      List.lookup]

/-- C7: for every image classified decorative the generation path
short-circuits before building any prompt or making any call: the
suggested alt text is exactly the empty string and the list of prompts
sent to the external generator is empty. -/
theorem C7_decorative_short_circuit :
    ∀ (gen : String → Except String String) (d : GenInput) (img : ImgContext),
      (d.role.is_decorative = true → generate_alt_text gen d = ("", [])) ∧
      ((determine_image_role img).is_decorative = true →
        (extract_one gen img).1.suggested_alt = "" ∧ (extract_one gen img).2 = []) := by
  intro gen d img
  constructor
  · intro h; simp [generate_alt_text, h]
  · intro h
    have hro : (gen_input_of img).role.is_decorative = true := h
    constructor <;> simp [extract_one, generate_alt_text, hro]

/-- Witness for C7: a concrete decorative image produces an empty
suggested alt and sends no prompt, even under a failing generator. -/
theorem C7_decorative_short_circuit_witness :
    (determine_image_role img_dec).is_decorative = true ∧
    (extract_one gen_fail img_dec).1.suggested_alt = "" ∧
    (extract_one gen_fail img_dec).2 = [] := by
  have h := (C7_decorative_short_circuit gen_fail (gen_input_of img_dec) img_dec).2 rfl
  exact ⟨rfl, h.1, h.2⟩

/-- C9: a description-generation failure for one image does not abort
the batch: every image still yields its record (one record per input, in
order), and a non-decorative image whose generation call raises gets the
sentinel error string as its suggested alt text. -/
theorem C9_generation_failure_isolated :
    ∀ (gen : String → Except String String) (imgs : List ImgContext)
      (i : Nat) (img : ImgContext) (e : String),
      (extract_image_info gen imgs).length = imgs.length ∧
      (imgs[i]? = some img →
        (extract_image_info gen imgs)[i]? = some ((extract_one gen img).1)) ∧
      ((determine_image_role img).is_decorative = false →
        gen (build_prompt (gen_input_of img)) = .error e →
        (extract_one gen img).1.suggested_alt = "Error generating alt text: " ++ e) := by
  intro gen imgs i img e
  refine ⟨by simp [extract_image_info], ?_, ?_⟩
  · intro h; simp [extract_image_info, List.getElem?_map, h]
  · intro hd hg
    have hro : (gen_input_of img).role.is_decorative = false := hd
    simp [extract_one, generate_alt_text, hro, hg]

/-- Witness for C9: with an always-raising generator a two-image batch
still yields two records, the first (non-decorative) one carrying the
sentinel string. -/
theorem C9_generation_failure_witness :
    (extract_image_info gen_fail [img_plain, img_dec]).length = 2 ∧
    (extract_image_info gen_fail [img_plain, img_dec])[0]? =
      some ((extract_one gen_fail img_plain).1) ∧
    (extract_one gen_fail img_plain).1.suggested_alt =
      "Error generating alt text: boom" := by
  have h := C9_generation_failure_isolated gen_fail [img_plain, img_dec] 0 img_plain "boom"
  exact ⟨h.1, h.2.1 rfl, h.2.2 rfl rfl⟩

/-! ## Length bookkeeping for the context-budget claim -/

/-- The length of `' '.join(xs)`, computed recursively. -/
def jlen : List String → Nat
  | [] => 0
  | [s] => s.length
  | s :: t :: r => s.length + 1 + jlen (t :: r)

theorem join_space_length : ∀ xs : List String, (join_space xs).length = jlen xs := by
  intro xs
  induction xs with
  | nil => rfl
  | cons s rest ih =>
    cases rest with
    | nil => rfl
    | cons t r =>
      show ((s ++ " ") ++ join_space (t :: r)).length = s.length + 1 + jlen (t :: r)
      rw [String.length_append, String.length_append, ih,
        show (" " : String).length = 1 from rfl]

theorem jlen_sum : ∀ xs : List String, jlen xs = (xs.map String.length).sum + (xs.length - 1) := by
  intro xs
  induction xs with
  | nil => rfl
  | cons s rest ih =>
    cases rest with
    | nil => simp [jlen]
    | cons t r =>
      rw [show jlen (s :: t :: r) = s.length + 1 + jlen (t :: r) from rfl, ih]
      simp only [List.map_cons, List.sum_cons, List.length_cons]
      omega

theorem jlen_reverse (xs : List String) : jlen xs.reverse = jlen xs := by
  rw [jlen_sum, jlen_sum, List.map_reverse, List.sum_reverse, List.length_reverse]

theorem jlen_cons_le (f : String) (l : List String) :
    jlen (f :: l) ≤ f.length + 1 + jlen l := by
  cases l <;> simp [jlen]

theorem jlen_append_one (pre : List String) (f : String) :
    jlen (pre ++ [f]) ≤ jlen pre + 1 + f.length := by
  induction pre with
  | nil => simp [jlen]
  | cons a pre ih =>
    cases pre with
    | nil => simp [jlen]
    | cons b pre' =>
      simp only [List.cons_append] at ih ⊢
      simp only [jlen]
      omega

/-! ## Loop invariants of the context extractor -/

/-- Completeness / stop condition of the `next_text` loop: either the
returned accumulator already reached the budget, or every remaining
qualifying fragment was appended. -/
theorem collect_next_complete (B : Nat) :
    ∀ (fs : List TextFragment) (acc : List String),
      B ≤ (join_space (collect_next B fs acc)).length ∨
      collect_next B fs acc = acc ++ qualifying fs := by
  intro fs
  induction fs with
  | nil => intro acc; right; simp [collect_next, qualifying]
  | cons f rest ih =>
    intro acc
    by_cases h : (join_space acc).length < B
    · rcases ih (if is_valid_text f then acc ++ [py_strip f.content] else acc) with h1 | h1
      · left
        simpa only [collect_next, if_pos h] using h1
      · right
        simp only [collect_next, if_pos h]
        rw [h1]
        by_cases hv : is_valid_text f <;>
          simp [qualifying, List.filter_cons, hv, List.append_assoc]
    · left
      simp only [collect_next, if_neg h]
      omega

/-- Shape of the `next_text` result: the accumulator is returned
untouched, or the last appended fragment was added while the joined
length was still under budget. -/
theorem collect_next_last (B : Nat) :
    ∀ (fs : List TextFragment) (acc : List String),
      collect_next B fs acc = acc ∨
      ∃ pre f, collect_next B fs acc = pre ++ [f] ∧ (join_space pre).length < B := by
  intro fs
  induction fs with
  | nil => intro acc; left; rfl
  | cons f rest ih =>
    intro acc
    by_cases h : (join_space acc).length < B
    · by_cases hv : is_valid_text f
      · rcases ih (acc ++ [py_strip f.content]) with h1 | ⟨pre, g, h1, h2⟩
        · right
          refine ⟨acc, py_strip f.content, ?_, h⟩
          simp only [collect_next, if_pos h, if_pos hv]
          exact h1
        · right
          refine ⟨pre, g, ?_, h2⟩
          simp only [collect_next, if_pos h, if_pos hv]
          exact h1
      · have heq : collect_next B (f :: rest) acc = collect_next B rest acc := by
          simp only [collect_next, if_pos h, if_neg hv]
        rw [heq]
        exact ih acc
    · left
      simp only [collect_next, if_neg h]

/-- The `previous_text` loop is the `next_text` loop on a reversed
accumulator: prepending to one is appending to the other. -/
theorem collect_prev_eq_reverse (B : Nat) :
    ∀ (fs : List TextFragment) (acc : List String),
      collect_prev B fs acc = (collect_next B fs acc.reverse).reverse := by
  intro fs
  induction fs with
  | nil => intro acc; simp [collect_prev, collect_next]
  | cons f rest ih =>
    intro acc
    have hlen : (join_space acc.reverse).length = (join_space acc).length := by
      rw [join_space_length, join_space_length, jlen_reverse]
    by_cases h : (join_space acc).length < B
    · have h' : (join_space acc.reverse).length < B := by rw [hlen]; exact h
      by_cases hv : is_valid_text f
      · simp only [collect_prev, collect_next, if_pos h, if_pos h', if_pos hv]
        rw [ih (py_strip f.content :: acc), List.reverse_cons]
      · simp only [collect_prev, collect_next, if_pos h, if_pos h', if_neg hv]
        exact ih acc
    · have h' : ¬ (join_space acc.reverse).length < B := by rw [hlen]; exact h
      simp only [collect_prev, collect_next, if_neg h, if_neg h']
      rw [List.reverse_reverse]

theorem collect_prev_nil_eq (B : Nat) (fs : List TextFragment) :
    collect_prev B fs [] = (collect_next B fs []).reverse := by
  simpa using collect_prev_eq_reverse B fs []

/-! ## The three-forty-character-fragments bound -/

theorem count40_le_qualifying (fs : List TextFragment) :
    (fs.filter frag40).length ≤
      ((qualifying fs).filter (fun s => s.length == 40)).length := by
  induction fs with
  | nil => simp [qualifying]
  | cons f rest ih =>
    have hq : qualifying (f :: rest) =
        if is_valid_text f then py_strip f.content :: qualifying rest
        else qualifying rest := by
      by_cases hv : is_valid_text f <;> simp [qualifying, List.filter_cons, hv]
    by_cases hv : is_valid_text f
    · by_cases h40 : (py_strip f.content).length = 40
      · rw [hq, if_pos hv, List.filter_cons, List.filter_cons,
          if_pos (show frag40 f = true by simp [frag40, hv, h40]),
          if_pos (show ((py_strip f.content).length == 40) = true by simp [h40])]
        simp only [List.length_cons]
        omega
      · rw [hq, if_pos hv, List.filter_cons, List.filter_cons,
          if_neg (show ¬ frag40 f = true by simp [frag40, hv, h40]),
          if_neg (show ¬ ((py_strip f.content).length == 40) = true by simp [h40])]
        exact ih
    · rw [hq, if_neg hv, List.filter_cons,
        if_neg (show ¬ frag40 f = true by simp [frag40, hv])]
      exact ih

theorem sum_ge_40mul (q : List String) :
    40 * ((q.filter (fun s => s.length == 40)).length) ≤ (q.map String.length).sum := by
  induction q with
  | nil => simp
  | cons s rest ih =>
    by_cases h : s.length = 40
    · simp only [List.filter_cons, h, beq_self_eq_true, if_true, List.length_cons,
        List.map_cons, List.sum_cons]
      omega
    · simp only [List.filter_cons, List.map_cons, List.sum_cons]
      rw [if_neg (by simp [h])]
      omega

theorem jlen_ge_of_count40 (q : List String)
    (h : 3 ≤ (q.filter (fun s => s.length == 40)).length) :
    100 ≤ jlen q := by
  have h1 := sum_ge_40mul q
  have h2 : (q.filter (fun s => s.length == 40)).length ≤ q.length :=
    List.length_filter_le _ _
  rw [jlen_sum]
  omega

theorem collect_next_hundred (fs : List TextFragment)
    (h : 3 ≤ (fs.filter frag40).length) :
    100 ≤ (join_space (collect_next 100 fs [])).length := by
  rcases collect_next_complete 100 fs [] with h1 | h1
  · exact h1
  · rw [h1, List.nil_append, join_space_length]
    exact jlen_ge_of_count40 _ (le_trans h (count40_le_qualifying fs))

/-- C3: on each side of an image the extractor accumulates stripped
qualifying fragments joined by single spaces, stopping only once the
space-joined accumulator reaches or exceeds the budget B (default 100)
or the text nodes run out: the returned side either meets the budget or
consists of all qualifying fragments; the budget is checked only after
each add, so the result exceeds B by at most one fragment (plus its
separator); and whenever at least three qualifying 40-character
fragments are available on a side, the returned side at the default
budget has space-joined length at least 100. -/
theorem C3_context_budget :
    ∀ (img : ImgContext) (B : Nat),
      (get_surrounding_text_default img = get_surrounding_text img 100) ∧
      (B ≤ (get_surrounding_text img B).before.length ∨
        (get_surrounding_text img B).before = join_space (qualifying img.textsBefore).reverse) ∧
      (B ≤ (get_surrounding_text img B).after.length ∨
        (get_surrounding_text img B).after = join_space (qualifying img.textsAfter)) ∧
      (collect_prev B img.textsBefore [] = [] ∨
        ∃ f pre, collect_prev B img.textsBefore [] = f :: pre ∧
          (join_space pre).length < B ∧
          (get_surrounding_text img B).before.length ≤ B + f.length) ∧
      (collect_next B img.textsAfter [] = [] ∨
        ∃ pre f, collect_next B img.textsAfter [] = pre ++ [f] ∧
          (join_space pre).length < B ∧
          (get_surrounding_text img B).after.length ≤ B + f.length) ∧
      (3 ≤ (img.textsBefore.filter frag40).length →
        100 ≤ (get_surrounding_text img 100).before.length) ∧
      (3 ≤ (img.textsAfter.filter frag40).length →
        100 ≤ (get_surrounding_text img 100).after.length) := by
  intro img B
  have hblen : ∀ C, ((get_surrounding_text img C).before.length =
      (join_space (collect_next C img.textsBefore [])).length) := by
    intro C
    show (join_space (collect_prev C img.textsBefore [])).length = _
    rw [collect_prev_nil_eq, join_space_length, join_space_length, jlen_reverse]
  refine ⟨rfl, ?_, ?_, ?_, ?_, ?_, ?_⟩
  · rcases collect_next_complete B img.textsBefore [] with h1 | h1
    · left; rw [hblen B]; exact h1
    · right
      show join_space (collect_prev B img.textsBefore []) = _
      rw [collect_prev_nil_eq, h1, List.nil_append]
  · rcases collect_next_complete B img.textsAfter [] with h1 | h1
    · left; exact h1
    · right
      show join_space (collect_next B img.textsAfter []) = _
      rw [h1, List.nil_append]
  · rcases collect_next_last B img.textsBefore [] with h1 | ⟨pre, f, h1, h2⟩
    · left; rw [collect_prev_nil_eq, h1]; rfl
    · right
      refine ⟨f, pre.reverse, ?_, ?_, ?_⟩
      · rw [collect_prev_nil_eq, h1, List.reverse_append]
        rfl
      · rw [join_space_length, jlen_reverse, ← join_space_length]
        exact h2
      · rw [hblen B, join_space_length, h1]
        have h3 := jlen_append_one pre f
        have h4 : jlen pre < B := by rw [← join_space_length]; exact h2
        omega
  · rcases collect_next_last B img.textsAfter [] with h1 | ⟨pre, f, h1, h2⟩
    · left; exact h1
    · right
      refine ⟨pre, f, h1, h2, ?_⟩
      show (join_space (collect_next B img.textsAfter [])).length ≤ B + f.length
      rw [join_space_length, h1]
      have h3 := jlen_append_one pre f
      have h4 : jlen pre < B := by rw [← join_space_length]; exact h2
      omega
  · intro h
    rw [hblen 100]
    exact collect_next_hundred img.textsBefore h
  · intro h
    show 100 ≤ (join_space (collect_next 100 img.textsAfter [])).length
    exact collect_next_hundred img.textsAfter h

/-- Witness for C3: three 40-character qualifying fragments on each side
drive both returned sides to length at least 100 at the default
budget. -/
theorem C3_context_budget_witness :
    100 ≤ (get_surrounding_text img_frags3 100).before.length ∧
    100 ≤ (get_surrounding_text img_frags3 100).after.length := by
  have h := C3_context_budget img_frags3 100
  exact ⟨h.2.2.2.2.2.1 (by decide), h.2.2.2.2.2.2 (by decide)⟩
